import Mathlib

/-!
Verification of the profile-based movie recommender in
backend/app/services/unified_recommender_service.py and the
POST /recommendations/by_profile pipeline in backend/app/main.py.

The Python service is shallowly embedded as pure Lean functions.
Python dicts become association lists (preserving insertion order, which
Python dicts guarantee and which the ranking loop iterates in); the SQL
tables behind the identifier mapping become explicit row lists with
boolean failure flags standing for the try/except paths; numpy real
vectors become List over the real numbers; the process-wide mapping
statistics counters are threaded explicitly through every call.
-/

/-! ## Identifier helpers -/

/-- Test for the IMDb id prefix, the Python expression s.startswith(tt). -/
def startsTT (s : String) : Bool :=
  match s.data with
  | 't' :: 't' :: _ => true
  | _ => false

/-- Python: imdb_id if imdb_id.startswith(tt) else (tt + imdb_id),
lines 416-417 and 354-355 of unified_recommender_service.py. -/
def ensureTT (s : String) : String := if startsTT s then s else "tt" ++ s

/-- Python: imdb_id[2:] if imdb_id.startswith(tt) else imdb_id,
lines 325-327 of unified_recommender_service.py. -/
def stripTT (s : String) : String :=
  if startsTT s then String.mk (s.data.drop 2) else s

/-- Lookup in an association list modelling a Python dict
(first matching key wins; dict keys are unique). -/
def alistLookup {α : Type} (l : List (String × α)) (k : String) : Option α :=
  (l.find? (fun p => p.1 == k)).map Prod.snd

/-! ## Vector arithmetic (numpy) -/

/-- Elementwise sum of two equal-length real vectors. -/
noncomputable def vecSum (a b : List ℝ) : List ℝ := List.zipWith (fun x y => x + y) a b

/-- Scalar multiple of a real vector. -/
noncomputable def vecScale (c : ℝ) (v : List ℝ) : List ℝ := v.map (fun x => c * x)

/-- Elementwise arithmetic mean of a nonempty list of equal-length vectors;
models np.mean(item_vectors, axis=0) at line 584. -/
noncomputable def vecMean : List (List ℝ) → List ℝ
  | [] => []
  | v :: vs => vecScale (1 / ((v :: vs).length : ℝ)) (vs.foldl vecSum v)

/-- Dot product of two real vectors. -/
noncomputable def dotL (a b : List ℝ) : ℝ := (List.zipWith (fun x y => x * y) a b).sum

/-- Euclidean magnitude of a real vector. -/
noncomputable def norm2 (a : List ℝ) : ℝ := Real.sqrt (dotL a a)

/-- Modelled from the spec: the sklearn.metrics.pairwise.cosine_similarity
call at line 602 is an external library function; the spec defines it as
dot(a,b) / (norm(a) * norm(b)), equal to 0 when either vector has zero
magnitude (sklearn normalizes zero-norm vectors by 1, giving the same 0). -/
noncomputable def cosineSim (a b : List ℝ) : ℝ :=
  if norm2 a = 0 ∨ norm2 b = 0 then 0 else dotL a b / (norm2 a * norm2 b)

/-! ## Data model -/

/-- Process-wide mapping statistics counters, the class attribute
_mapping_stats at lines 41-47. -/
structure MappingStats where
  direct_hits : Nat
  enhanced_hits : Nat
  misses : Nat
  total_requests : Nat
  errors : Nat
deriving DecidableEq

/-- The relational mapping store behind the shared database engine.
links rows are (movieId, imdbId) pairs, enhanced_links rows are
(imdb_id, movielens_id) pairs already ordered by confidence descending
(the query at line 357 orders by confidence and takes the first row).
linksFail and enhancedFail flag the try/except paths: when set, the
corresponding query raises instead of returning rows. -/
structure Db where
  hasEngine : Bool
  links : List (String × String)
  hasEnhanced : Bool
  enhanced_links : List (String × String)
  linksFail : Bool
  enhancedFail : Bool
deriving DecidableEq

/-- The loaded model state of UnifiedRecommenderService: the item
embedding matrix algo.qi (one row per inner index), the two item id maps,
the known IMDb id set, and the popular fallback list. -/
structure SvdModel where
  qi : List (List ℝ)
  raw_to_inner_iid_map : List (String × Nat)
  inner_to_raw_iid_map : List (Nat × String)
  all_movie_imdb_ids : List String
  popular_movie_ids_fallback : List String
  model_loaded : Bool

/-! ## Identifier Resolver -/

/-- Row lookup: SELECT movieId FROM links WHERE imdbId = :imdb_id, fetchone
(line 334); the first matching row in table order. -/
def linksMovieIdFor (db : Db) (dbImdbId : String) : Option String :=
  (db.links.find? (fun r => r.2 == dbImdbId)).map Prod.fst

/-- Row lookup: SELECT movielens_id FROM enhanced_links WHERE imdb_id =
:imdb_id ORDER BY confidence DESC LIMIT 1 (line 357); rows are stored
confidence-descending so the first match is the answer. -/
def enhancedMovieIdFor (db : Db) (imdbId : String) : Option String :=
  (db.enhanced_links.find? (fun r => r.1 == ensureTT imdbId)).map Prod.snd

/-- The resolver _get_raw_movie_id_from_imdb_id, lines 302-380.
Always bumps total_requests; then in order: direct hit in the item map,
links-table hit (direct_hits), enhanced-links hit (enhanced_hits), miss
(misses). A raised query adds to errors and falls through to the next
tier, exactly as the two try/except blocks do. -/
def getRawMovieIdFromImdbId (m : SvdModel) (db : Db) (st : MappingStats)
    (imdb_id : String) : Option String × MappingStats :=
  let st1 : MappingStats := { st with total_requests := st.total_requests + 1 }
  if (alistLookup m.raw_to_inner_iid_map imdb_id).isSome then
    (some imdb_id, { st1 with direct_hits := st1.direct_hits + 1 })
  else
    let st2 : MappingStats :=
      if db.hasEngine && db.linksFail then { st1 with errors := st1.errors + 1 } else st1
    match (if db.hasEngine && !db.linksFail then linksMovieIdFor db (stripTT imdb_id) else none) with
    | some movielens_id => (some movielens_id, { st2 with direct_hits := st2.direct_hits + 1 })
    | none =>
      let st3 : MappingStats :=
        if db.hasEngine && db.enhancedFail then { st2 with errors := st2.errors + 1 } else st2
      match (if db.hasEngine && !db.enhancedFail && db.hasEnhanced
             then enhancedMovieIdFor db imdb_id else none) with
      | some movielens_id =>
        (some movielens_id, { st3 with enhanced_hits := st3.enhanced_hits + 1 })
      | none => (none, { st3 with misses := st3.misses + 1 })

/-- The profile mapping loop of get_recommendations_for_profile, lines
549-559: per liked id, a direct item-map hit is kept as-is (no resolver
call); otherwise the resolver runs and its answer is kept only when it is
truthy (non-empty) and is an item-map key. Statistics thread left to
right through the resolver calls. -/
def mapProfileIds (m : SvdModel) (db : Db) :
    MappingStats → List String → List String × MappingStats
  | st, [] => ([], st)
  | st, imdb_id :: rest =>
    if (alistLookup m.raw_to_inner_iid_map imdb_id).isSome then
      let r := mapProfileIds m db st rest
      (imdb_id :: r.1, r.2)
    else
      match getRawMovieIdFromImdbId m db st imdb_id with
      | (some raw_id, st1) =>
        if raw_id ≠ "" ∧ (alistLookup m.raw_to_inner_iid_map raw_id).isSome then
          let r := mapProfileIds m db st1 rest
          (raw_id :: r.1, r.2)
        else
          mapProfileIds m db st1 rest
      | (none, st1) => mapProfileIds m db st1 rest

/-- The heuristic at line 397: a raw id already looks like a caller-facing
IMDb id when it carries the tt prefix or is a known IMDb id. -/
def looksImdb (m : SvdModel) (rid : String) : Bool :=
  startsTT rid || decide (rid ∈ m.all_movie_imdb_ids)

/-- The batch reverse conversion _get_imdb_ids_from_raw_ids, lines
382-423. Empty input gives []; if every candidate already looks like an
IMDb id the whole batch passes through unchanged; otherwise the whole
batch goes to SELECT imdbId FROM links WHERE movieId IN :raw_ids, whose
rows come back in table order, tt-prefixed; a missing engine or a raised
query gives []. -/
def getImdbIdsFromRawIds (m : SvdModel) (db : Db) (raw_ids : List String) : List String :=
  if raw_ids = [] then []
  else if raw_ids.all (looksImdb m) then raw_ids
  else if db.hasEngine = false then []
  else if db.linksFail then []
  else (db.links.filter (fun r => decide (r.1 ∈ raw_ids))).map (fun r => ensureTT r.2)

/-! ## Profile Recommender core -/

/-- Inner indices of the mapped raw ids, line 571. -/
def innerIdsOf (m : SvdModel) (mapped_raw_ids : List String) : List Nat :=
  mapped_raw_ids.filterMap (alistLookup m.raw_to_inner_iid_map)

/-- Bounds-checked inner indices, line 575: indices at or beyond
qi.shape[0] are dropped defensively. -/
def validInnerIds (m : SvdModel) (mapped_raw_ids : List String) : List Nat :=
  (innerIdsOf m mapped_raw_ids).filter (fun i => i < m.qi.length)

/-- The taste vector, lines 581-584: mean of the embedding rows of the
valid inner ids. -/
noncomputable def tasteVector (m : SvdModel) (mapped_raw_ids : List String) : List ℝ :=
  vecMean ((validInnerIds m mapped_raw_ids).map (fun i => m.qi.getD i []))

/-- The similarity loop, lines 588-604: iterate inner_to_raw_iid_map in
its insertion order, skip items whose raw id is in the profile, skip
out-of-bounds inner ids, and pair each remaining raw id with its cosine
similarity to the taste vector. -/
noncomputable def profileScores (m : SvdModel) (mapped_raw_ids : List String) :
    List (String × ℝ) :=
  m.inner_to_raw_iid_map.filterMap (fun p =>
    if p.2 ∈ mapped_raw_ids then none
    else if m.qi.length ≤ p.1 then none
    else some (p.2, cosineSim (tasteVector m mapped_raw_ids) (m.qi.getD p.1 [])))

/-- Descending-similarity ordering on scored candidates. Python
list.sort(key=..., reverse=True) at line 607 is a stable descending sort,
which insertion sort under this relation reproduces exactly. -/
def simDescRel (x y : String × ℝ) : Prop := y.2 ≤ x.2

noncomputable instance : DecidableRel simDescRel :=
  fun x y => inferInstanceAs (Decidable (y.2 ≤ x.2))

instance : IsTotal (String × ℝ) simDescRel := ⟨fun a b => le_total b.2 a.2⟩

instance : IsTrans (String × ℝ) simDescRel := ⟨fun _ _ _ h1 h2 => le_trans h2 h1⟩

/-- The ranked candidate list, lines 607-610: sort all scores descending
by similarity (stable) and keep the raw ids of the top 2 * n. -/
noncomputable def rankedCandidates (m : SvdModel) (mapped_raw_ids : List String)
    (n : Nat) : List String :=
  ((List.insertionSort simDescRel (profileScores m mapped_raw_ids)).take (2 * n)).map Prod.fst

/-- Message at line 541. -/
def loadingMessage : String :=
  "Recommender model is still loading. Popular movies returned instead."

/-- Message at line 546. -/
def emptyProfileMessage : String :=
  "No movies provided in your profile. Showing popular movies instead."

/-- Message at line 568. -/
def noneMappedMessage : String :=
  "None of your liked movies were found in our database. Showing popular movies instead."

/-- Message at line 579. -/
def noValidIdsMessage : String :=
  "None of your liked movies could be used for recommendations. Showing popular movies instead."

/-- Message at line 619. -/
def noRecsMessage : String :=
  "Could not find personalized recommendations based on your profile. Showing popular movies instead."

/-- Message at line 621, built from the length of the converted list. -/
def generatedMessage (k : Nat) : String :=
  "Generated " ++ toString k ++ " recommendations based on your movie profile."

/-- Lines 566-627 of get_recommendations_for_profile, after the mapping
loop (which is the only part that writes statistics): the three data
fallbacks and the personalized path. In the conversion-empty fallback the
source truncates the popular list twice (lines 618 and 624). -/
noncomputable def recsCore (m : SvdModel) (db : Db) (mapped_raw_ids : List String)
    (n : Nat) : List String × String :=
  if mapped_raw_ids = [] then
    (m.popular_movie_ids_fallback.take n, noneMappedMessage)
  else if validInnerIds m mapped_raw_ids = [] then
    (m.popular_movie_ids_fallback.take n, noValidIdsMessage)
  else
    let conv := getImdbIdsFromRawIds m db (rankedCandidates m mapped_raw_ids n)
    if conv = [] then
      ((m.popular_movie_ids_fallback.take n).take n, noRecsMessage)
    else
      (conv.take n, generatedMessage conv.length)

/-- get_recommendations_for_profile, lines 525-627, with the mapping
statistics threaded explicitly: the not-loaded and empty-profile guards
return the popular fallback untouched; otherwise the mapping loop runs
and the core takes over. -/
noncomputable def getRecommendationsForProfile (m : SvdModel) (db : Db)
    (st : MappingStats) (imdb_ids : List String) (n : Nat) :
    (List String × String) × MappingStats :=
  if m.model_loaded = false then
    ((m.popular_movie_ids_fallback.take n, loadingMessage), st)
  else if imdb_ids = [] then
    ((m.popular_movie_ids_fallback.take n, emptyProfileMessage), st)
  else
    let r := mapProfileIds m db st imdb_ids
    (recsCore m db r.1 n, r.2)

/-- The POST /recommendations/by_profile handler, main.py lines 96-115,
with the metadata enricher modelled as a per-id oracle enrichOk: the
service result list is enriched id by id, failures silently dropped
(asyncio.gather preserves input order), and an empty service list short
circuits to an empty response with the service message. -/
noncomputable def profileEndpoint (m : SvdModel) (db : Db) (st : MappingStats)
    (enrichOk : String → Bool) (liked : List String) (n : Nat) : List String × String :=
  let r := (getRecommendationsForProfile m db st liked n).1
  if r.1 = [] then ([], r.2) else (r.1.filter enrichOk, r.2)

/-! ## Concrete states used by the scenario claims -/

/-- Empty statistics record, the process-start value of _mapping_stats. -/
def st0 : MappingStats := ⟨0, 0, 0, 0, 0⟩

/-- A store with no engine at all. -/
def db0 : Db := ⟨false, [], false, [], false, false⟩

/-- The four-item model of the concrete scenario in the spec: vectors
[[1,0],[0,1],[1,1],[-1,0]], raw ids A B C D, all caller-facing. -/
noncomputable def mC1 : SvdModel :=
  { qi := [[(1:ℝ), 0], [(0:ℝ), 1], [(1:ℝ), 1], [(-1:ℝ), 0]]
    raw_to_inner_iid_map := [("A", 0), ("B", 1), ("C", 2), ("D", 3)]
    inner_to_raw_iid_map := [(0, "A"), (1, "B"), (2, "C"), (3, "D")]
    all_movie_imdb_ids := ["A", "B", "C", "D"]
    popular_movie_ids_fallback := []
    model_loaded := true }

/-- Two-item model whose single candidate is the MovieLens raw id 5,
forcing the database branch of the reverse conversion. -/
noncomputable def mC2 : SvdModel :=
  { qi := [[(1:ℝ)], [(1:ℝ)]]
    raw_to_inner_iid_map := [("A", 0), ("5", 1)]
    inner_to_raw_iid_map := [(0, "A"), (1, "5")]
    all_movie_imdb_ids := ["A"]
    popular_movie_ids_fallback := []
    model_loaded := true }

/-- A links table carrying two rows for movieId 5. -/
def dbC2 : Db := ⟨true, [("5", "0005"), ("5", "0006")], false, [], false, false⟩

/-- A links table carrying twenty rows for movieId 5, so the single
ranked candidate converts to twenty IMDb ids. -/
def dbC3 : Db :=
  ⟨true,
    [("5", "0001"), ("5", "0002"), ("5", "0003"), ("5", "0004"), ("5", "0005"),
     ("5", "0006"), ("5", "0007"), ("5", "0008"), ("5", "0009"), ("5", "0010"),
     ("5", "0011"), ("5", "0012"), ("5", "0013"), ("5", "0014"), ("5", "0015"),
     ("5", "0016"), ("5", "0017"), ("5", "0018"), ("5", "0019"), ("5", "0020")],
    false, [], false, false⟩

/-- Enrichment oracle failing on the first ten of the twenty converted
candidates and succeeding on the last ten. -/
def enrichC3 (s : String) : Bool :=
  decide (s ∈ ["tt0011", "tt0012", "tt0013", "tt0014", "tt0015",
               "tt0016", "tt0017", "tt0018", "tt0019", "tt0020"])

/-- Enrichment oracle that always succeeds. -/
def enrichAll (_ : String) : Bool := true

/-- Model with no caller-facing ids, used for the mixed-batch conversion
counterexample. -/
noncomputable def mC4 : SvdModel :=
  { qi := []
    raw_to_inner_iid_map := []
    inner_to_raw_iid_map := []
    all_movie_imdb_ids := []
    popular_movie_ids_fallback := []
    model_loaded := true }

/-- Store for the mixed-batch counterexample: one links row for
movieId 5 and no row for the IMDb-shaped candidate. -/
def dbC4 : Db := ⟨true, [("5", "0005")], false, [], false, false⟩

/-- Three-item model with MovieLens raw ids: liked raw id 9, candidates
1 and 2 with identical embeddings (a similarity tie). -/
noncomputable def mC5 : SvdModel :=
  { qi := [[(1:ℝ), 0], [(1:ℝ), 0], [(1:ℝ), 0]]
    raw_to_inner_iid_map := [("9", 0), ("1", 1), ("2", 2)]
    inner_to_raw_iid_map := [(0, "9"), (1, "1"), (2, "2")]
    all_movie_imdb_ids := []
    popular_movie_ids_fallback := []
    model_loaded := true }

/-- Links table whose row order reverses the ranking order of the two
candidates of mC5. -/
def dbC5 : Db := ⟨true, [("2", "0002"), ("1", "0001")], false, [], false, false⟩

/-- Model whose single liked item maps to the out-of-bounds inner index 5
while the popular fallback list contains that very liked id. -/
noncomputable def mC6 : SvdModel :=
  { qi := [[(1:ℝ)]]
    raw_to_inner_iid_map := [("tt1", 5)]
    inner_to_raw_iid_map := [(5, "tt1")]
    all_movie_imdb_ids := []
    popular_movie_ids_fallback := ["tt1"]
    model_loaded := true }

/-- An unloaded model with the popular fallback list of the spec
scenario. -/
noncomputable def mNotReady : SvdModel :=
  { qi := []
    raw_to_inner_iid_map := []
    inner_to_raw_iid_map := []
    all_movie_imdb_ids := []
    popular_movie_ids_fallback := ["p1", "p2", "p3"]
    model_loaded := false }

/-- Two-item model whose single candidate carries the tt prefix, so the
reverse conversion passes it through unchanged. -/
noncomputable def mW5 : SvdModel :=
  { qi := [[(1:ℝ)], [(1:ℝ)]]
    raw_to_inner_iid_map := [("A", 0), ("ttB", 1)]
    inner_to_raw_iid_map := [(0, "A"), (1, "ttB")]
    all_movie_imdb_ids := ["A"]
    popular_movie_ids_fallback := []
    model_loaded := true }

/-! ## General lemmas about the pipeline -/

/-- When every candidate already looks like an IMDb id, the batch
conversion is the identity. -/
theorem conv_passthrough (m : SvdModel) (db : Db) (ids : List String)
    (hext : ids.all (looksImdb m) = true) :
    getImdbIdsFromRawIds m db ids = ids := by
  by_cases h : ids = []
  · simp [getImdbIdsFromRawIds, h]
  · simp [getImdbIdsFromRawIds, h, hext]

/-- Evaluation of the service on the personalized success path: loaded
model, nonempty profile, at least one mapped id, at least one valid inner
id, nonempty converted candidate list. -/
theorem getRecs_success_path (m : SvdModel) (db : Db) (st : MappingStats)
    (liked : List String) (n : Nat)
    (h1 : m.model_loaded = true) (h2 : liked ≠ [])
    (h3 : (mapProfileIds m db st liked).1 ≠ [])
    (h4 : validInnerIds m (mapProfileIds m db st liked).1 ≠ [])
    (h5 : getImdbIdsFromRawIds m db
      (rankedCandidates m (mapProfileIds m db st liked).1 n) ≠ []) :
    getRecommendationsForProfile m db st liked n =
      (((getImdbIdsFromRawIds m db
          (rankedCandidates m (mapProfileIds m db st liked).1 n)).take n,
        generatedMessage (getImdbIdsFromRawIds m db
          (rankedCandidates m (mapProfileIds m db st liked).1 n)).length),
       (mapProfileIds m db st liked).2) := by
  simp [getRecommendationsForProfile, h1, h2, recsCore, h3, h4, h5]

/-- The option component of the resolver does not depend on the incoming
statistics record. -/
theorem getRaw_fst_const (m : SvdModel) (db : Db) (i : String)
    (st st' : MappingStats) :
    (getRawMovieIdFromImdbId m db st i).1 = (getRawMovieIdFromImdbId m db st' i).1 := by
  unfold getRawMovieIdFromImdbId
  by_cases h1 : (alistLookup m.raw_to_inner_iid_map i).isSome
  · rw [if_pos h1, if_pos h1]
  · rw [if_neg h1, if_neg h1]
    cases hL : (if db.hasEngine && !db.linksFail
        then linksMovieIdFor db (stripTT i) else none) with
    | some v => rfl
    | none =>
      cases hE : (if db.hasEngine && !db.enhancedFail && db.hasEnhanced
          then enhancedMovieIdFor db i else none) with
      | some v => rfl
      | none => rfl

/-- The mapped raw id list produced by the profile mapping loop does not
depend on the incoming statistics record. -/
theorem mapProfileIds_fst_const (m : SvdModel) (db : Db) :
    ∀ (liked : List String) (st st' : MappingStats),
      (mapProfileIds m db st liked).1 = (mapProfileIds m db st' liked).1 := by
  intro liked
  induction liked with
  | nil => intro st st'; rfl
  | cons i rest ih =>
    intro st st'
    by_cases h1 : (alistLookup m.raw_to_inner_iid_map i).isSome
    · simp only [mapProfileIds, h1, if_true, ite_true]
      simp only [List.cons.injEq, true_and]
      exact ih st st'
    · have hopt := getRaw_fst_const m db i st st'
      cases hA : getRawMovieIdFromImdbId m db st i with
      | mk oA sA =>
        cases hB : getRawMovieIdFromImdbId m db st' i with
        | mk oB sB =>
          rw [hA, hB] at hopt
          simp at hopt
          subst hopt
          cases oA with
          | none =>
            simp only [mapProfileIds, h1, hA, hB, if_false, ite_false]
            exact ih sA sB
          | some raw =>
            by_cases h2 : raw ≠ "" ∧ (alistLookup m.raw_to_inner_iid_map raw).isSome
            · simp [mapProfileIds, h1, hA, hB, h2.1, h2.2]
              exact ih sA sB
            · simp [mapProfileIds, h1, hA, hB, h2]
              exact ih sA sB

/-- Every scored candidate excludes the mapped profile ids (the skip at
lines 592-594). -/
theorem profileScores_fst_not_mapped (m : SvdModel) (mapped : List String)
    (p : String × ℝ) (hp : p ∈ profileScores m mapped) : p.1 ∉ mapped := by
  unfold profileScores at hp
  obtain ⟨q, hq, hfq⟩ := List.mem_filterMap.mp hp
  by_cases hmem : q.2 ∈ mapped
  · simp [hmem] at hfq
  · by_cases hbound : m.qi.length ≤ q.1
    · simp [hmem, hbound] at hfq
    · simp only [hmem, hbound, if_neg, if_false, ite_false] at hfq
      simp at hfq
      rw [← hfq]
      exact hmem

/-- The ranked candidate list never contains a mapped profile id. -/
theorem rankedCandidates_not_mapped (m : SvdModel) (mapped : List String)
    (n : Nat) (x : String) (hx : x ∈ rankedCandidates m mapped n) : x ∉ mapped := by
  unfold rankedCandidates at hx
  obtain ⟨p, hp, hpx⟩ := List.mem_map.mp hx
  have hp2 : p ∈ List.insertionSort simDescRel (profileScores m mapped) :=
    List.take_subset _ _ hp
  have hp3 : p ∈ profileScores m mapped := by
    rw [List.mem_insertionSort] at hp2
    exact hp2
  have := profileScores_fst_not_mapped m mapped p hp3
  rw [hpx] at this
  exact this

/-! ## Claim C7 -/

/-- Claim C7: whenever the model is not loaded, get_recommendations_for_profile
returns exactly the first n entries of the popular fallback list together
with the loading message, for every liked list and every n, without
raising (the embedding is total). -/
theorem c7_not_ready_popular_fallback (m : SvdModel) (db : Db) (st : MappingStats)
    (liked : List String) (n : Nat) (h : m.model_loaded = false) :
    getRecommendationsForProfile m db st liked n =
      ((m.popular_movie_ids_fallback.take n, loadingMessage), st) := by
  simp [getRecommendationsForProfile, h]

/-- Witness for C7: the concrete spec scenario with the popular list
p1 p2 p3, liked list containing x, and n = 2. -/
theorem c7_not_ready_popular_witness :
    mNotReady.model_loaded = false ∧
    getRecommendationsForProfile mNotReady db0 st0 ["x"] 2 =
      ((["p1", "p2"], loadingMessage), st0) :=
  ⟨rfl, (c7_not_ready_popular_fallback mNotReady db0 st0 ["x"] 2 rfl).trans (by decide)⟩

/-! ## Claim C8 -/

/-- Claim C8: the cosine similarity used by the ranking is total, yields 0
whenever either vector has zero magnitude, and divides only by the product
of the two magnitudes when both are nonzero (so the divisor is never
zero). -/
theorem c8_cosine_never_divides_by_zero (a b : List ℝ) :
    (norm2 a = 0 ∨ norm2 b = 0 → cosineSim a b = 0) ∧
    (norm2 a ≠ 0 → norm2 b ≠ 0 →
      norm2 a * norm2 b ≠ 0 ∧ cosineSim a b = dotL a b / (norm2 a * norm2 b)) := by
  constructor
  · intro h
    unfold cosineSim
    rw [if_pos h]
  · intro h1 h2
    refine ⟨mul_ne_zero h1 h2, ?_⟩
    unfold cosineSim
    rw [if_neg (not_or.mpr ⟨h1, h2⟩)]

/-- Witness for C8: the all-zero vector has zero magnitude and its
similarity against a unit vector is 0, not a division error. -/
theorem c8_cosine_zero_vector_witness :
    norm2 [(0:ℝ), 0] = 0 ∧ cosineSim [(0:ℝ), 0] [(1:ℝ), 0] = 0 := by
  have h : norm2 [(0:ℝ), 0] = 0 := by
    have hd : dotL [(0:ℝ), 0] [(0:ℝ), 0] = 0 := by
      simp [dotL]
    unfold norm2
    rw [hd, Real.sqrt_zero]
  exact ⟨h, (c8_cosine_never_divides_by_zero [(0:ℝ), 0] [(1:ℝ), 0]).1 (Or.inl h)⟩

/-! ## Claim C4 -/

/-- Counterexample for C4: the batch conversion does not handle each
candidate individually. In the mixed batch [tt1, 5] the IMDb-shaped
candidate tt1 defeats the all-candidates check, the whole batch goes to
the links lookup, and tt1 is dropped because no links row has movieId
tt1 — only tt0005 (from raw id 5) comes back. -/
theorem c4_mixed_batch_counterexample :
    getImdbIdsFromRawIds mC4 dbC4 ["tt1", "5"] = ["tt0005"] ∧
    "tt1" ∉ getImdbIdsFromRawIds mC4 dbC4 ["tt1", "5"] := by
  decide

/-- Claim C4 (amended): the batch conversion is all-or-nothing on input
shape, not per-candidate. A batch in which every candidate already looks
caller-facing passes through unchanged; any mixed batch is sent wholesale
to the reverse store lookup, whose rows alone determine the output, so
already-external candidates without a store row are dropped. -/
theorem c4_batch_conversion_amended (m : SvdModel) (db : Db) (ids : List String)
    (hne : ids ≠ []) :
    (ids.all (looksImdb m) = true → getImdbIdsFromRawIds m db ids = ids) ∧
    (ids.all (looksImdb m) = false → db.hasEngine = true → db.linksFail = false →
      getImdbIdsFromRawIds m db ids =
        (db.links.filter (fun r => decide (r.1 ∈ ids))).map (fun r => ensureTT r.2)) := by
  constructor
  · intro h
    simp [getImdbIdsFromRawIds, hne, h]
  · intro h hEng hFail
    simp [getImdbIdsFromRawIds, hne, h, hEng, hFail]

/-- Witness for C4 (amended): the mixed batch [tt1, 5] takes the
store-lookup branch and returns exactly the tt-prefixed store rows whose
movieId is in the batch. -/
theorem c4_batch_conversion_witness :
    (["tt1", "5"].all (looksImdb mC4) = false) ∧
    getImdbIdsFromRawIds mC4 dbC4 ["tt1", "5"] =
      (dbC4.links.filter (fun r => decide (r.1 ∈ ["tt1", "5"]))).map (fun r => ensureTT r.2) :=
  ⟨by decide,
    (c4_batch_conversion_amended mC4 dbC4 ["tt1", "5"] (by decide)).2 (by decide) (by decide)
      (by decide)⟩

/-! ## Claim C10 -/

/-- Claim C10: every resolver call bumps total_requests by exactly one and
exactly one of direct_hits, enhanced_hits, misses by exactly one, whatever
the input and whatever queries raise; hence the invariant
total_requests = direct_hits + enhanced_hits + misses is preserved. -/
theorem c10_resolver_stats_invariant (m : SvdModel) (db : Db) (st : MappingStats)
    (imdb_id : String) :
    (getRawMovieIdFromImdbId m db st imdb_id).2.total_requests = st.total_requests + 1 ∧
    (((getRawMovieIdFromImdbId m db st imdb_id).2.direct_hits = st.direct_hits + 1 ∧
      (getRawMovieIdFromImdbId m db st imdb_id).2.enhanced_hits = st.enhanced_hits ∧
      (getRawMovieIdFromImdbId m db st imdb_id).2.misses = st.misses) ∨
     ((getRawMovieIdFromImdbId m db st imdb_id).2.direct_hits = st.direct_hits ∧
      (getRawMovieIdFromImdbId m db st imdb_id).2.enhanced_hits = st.enhanced_hits + 1 ∧
      (getRawMovieIdFromImdbId m db st imdb_id).2.misses = st.misses) ∨
     ((getRawMovieIdFromImdbId m db st imdb_id).2.direct_hits = st.direct_hits ∧
      (getRawMovieIdFromImdbId m db st imdb_id).2.enhanced_hits = st.enhanced_hits ∧
      (getRawMovieIdFromImdbId m db st imdb_id).2.misses = st.misses + 1)) ∧
    (st.total_requests = st.direct_hits + st.enhanced_hits + st.misses →
      (getRawMovieIdFromImdbId m db st imdb_id).2.total_requests =
        (getRawMovieIdFromImdbId m db st imdb_id).2.direct_hits +
        (getRawMovieIdFromImdbId m db st imdb_id).2.enhanced_hits +
        (getRawMovieIdFromImdbId m db st imdb_id).2.misses) := by
  unfold getRawMovieIdFromImdbId
  by_cases h1 : (alistLookup m.raw_to_inner_iid_map imdb_id).isSome
  · simp only [h1, ite_true, if_true]
    simp
    omega
  · simp only [h1, ite_false, if_false]
    by_cases hB1 : db.hasEngine && db.linksFail
    all_goals simp only [hB1, ite_true, ite_false, if_true, if_false]
    all_goals
      cases hL : (if db.hasEngine && !db.linksFail
          then linksMovieIdFor db (stripTT imdb_id) else none) with
      | some v =>
        simp
        omega
      | none =>
        by_cases hB2 : db.hasEngine && db.enhancedFail
        all_goals simp only [hB2, ite_true, ite_false, if_true, if_false]
        all_goals
          cases hE : (if db.hasEngine && !db.enhancedFail && db.hasEnhanced
              then enhancedMovieIdFor db imdb_id else none) with
          | some v =>
            simp
            omega
          | none =>
            simp
            omega

/-- Witness for C10: a miss call from the empty statistics record, whose
invariant 0 = 0 + 0 + 0 is preserved. -/
theorem c10_resolver_stats_witness :
    st0.total_requests = st0.direct_hits + st0.enhanced_hits + st0.misses ∧
    (getRawMovieIdFromImdbId mC4 dbC4 st0 "zzz").2.total_requests =
      (getRawMovieIdFromImdbId mC4 dbC4 st0 "zzz").2.direct_hits +
      (getRawMovieIdFromImdbId mC4 dbC4 st0 "zzz").2.enhanced_hits +
      (getRawMovieIdFromImdbId mC4 dbC4 st0 "zzz").2.misses :=
  ⟨rfl, (c10_resolver_stats_invariant mC4 dbC4 st0 "zzz").2.2 rfl⟩

/-! ## Claim C9 -/

/-- Claim C9: with the model state, the store, the liked list and n all
fixed, the returned list and message are independent of the mutable
mapping-statistics counters, and a repeated call (which starts from the
statistics left by the first call) returns the same output — no hidden
randomness. -/
theorem c9_determinism_stats_noninterference (m : SvdModel) (db : Db)
    (st1 st2 : MappingStats) (liked : List String) (n : Nat) :
    (getRecommendationsForProfile m db st1 liked n).1 =
      (getRecommendationsForProfile m db st2 liked n).1 ∧
    (getRecommendationsForProfile m db
        (getRecommendationsForProfile m db st1 liked n).2 liked n).1 =
      (getRecommendationsForProfile m db st1 liked n).1 := by
  have key : ∀ stA stB : MappingStats,
      (getRecommendationsForProfile m db stA liked n).1 =
        (getRecommendationsForProfile m db stB liked n).1 := by
    intro stA stB
    by_cases h1 : m.model_loaded = false
    · simp [getRecommendationsForProfile, h1]
    · by_cases h2 : liked = []
      · simp [getRecommendationsForProfile, h1, h2]
      · have e1 : ∀ stA : MappingStats, (getRecommendationsForProfile m db stA liked n).1 =
            recsCore m db (mapProfileIds m db stA liked).1 n := by
          intro stA
          simp [getRecommendationsForProfile, h1, h2]
        rw [e1 stA, e1 stB, mapProfileIds_fst_const m db liked stA stB]
  exact ⟨key st1 st2, key _ st1⟩

/-! ## Claim C2 -/

/-- Counterexample for C2: with n = 1 the single ranked candidate (raw id
5) converts through two links rows into two IMDb ids, the message is
built from that pre-truncation count 2, and the returned list is then
trimmed to length 1 — so the reported k is not the count actually
returned. -/
theorem c2_pretruncation_count_counterexample :
    ((getRecommendationsForProfile mC2 dbC2 st0 ["A"] 1).1.1).length = 1 ∧
    (getRecommendationsForProfile mC2 dbC2 st0 ["A"] 1).1.2 = generatedMessage 2 ∧
    generatedMessage 2 ≠ generatedMessage 1 := by
  decide

/-- Claim C2 (amended): on the personalized success path the service
returns the converted candidate list truncated to n, but the message
reports the length of the converted list before truncation; the reported
count equals the returned count only when the converted list has at most
n entries. -/
theorem c2_truncation_and_message_amended (m : SvdModel) (db : Db) (st : MappingStats)
    (liked : List String) (n : Nat)
    (h1 : m.model_loaded = true) (h2 : liked ≠ [])
    (h3 : (mapProfileIds m db st liked).1 ≠ [])
    (h4 : validInnerIds m (mapProfileIds m db st liked).1 ≠ [])
    (h5 : getImdbIdsFromRawIds m db
      (rankedCandidates m (mapProfileIds m db st liked).1 n) ≠ []) :
    (getRecommendationsForProfile m db st liked n).1 =
      ((getImdbIdsFromRawIds m db
          (rankedCandidates m (mapProfileIds m db st liked).1 n)).take n,
        generatedMessage (getImdbIdsFromRawIds m db
          (rankedCandidates m (mapProfileIds m db st liked).1 n)).length) := by
  rw [getRecs_success_path m db st liked n h1 h2 h3 h4 h5]

/-- Witness for C2 (amended): a single candidate converts to a single id,
so the returned list is that id and the message reports 1. -/
theorem c2_truncation_and_message_witness :
    (getRecommendationsForProfile mW5 db0 st0 ["A"] 1).1 = (["ttB"], generatedMessage 1) :=
  (c2_truncation_and_message_amended mW5 db0 st0 ["A"] 1 rfl (by decide) (by decide)
    (by decide) (by decide)).trans (by decide)

/-! ## Claim C3 -/

/-- Counterexample for C3: with n = 10 the ranking over-fetches and the
conversion yields 20 candidates, of which the 10 that fail enrichment are
exactly the 10 the service keeps after its internal truncation — the
endpoint returns 0 records, not the 10 best-ranked enrichment survivors,
because truncation to n happens before enrichment. -/
theorem c3_enrichment_loss_counterexample :
    (getImdbIdsFromRawIds mC2 dbC3 (rankedCandidates mC2 ["A"] 10)).length = 20 ∧
    ((getImdbIdsFromRawIds mC2 dbC3 (rankedCandidates mC2 ["A"] 10)).filter enrichC3).length
      = 10 ∧
    profileEndpoint mC2 dbC3 st0 enrichC3 ["A"] 10 = ([], generatedMessage 20) := by
  decide

/-- Claim C3 (amended): the over-fetch factor 2 only buffers losses in the
reverse id conversion, which happens before truncation; the service trims
the converted list to n and the endpoint then enriches those n ids, so
enrichment failures are not recovered — the endpoint returns exactly the
enrichment survivors among the first n converted candidates. -/
theorem c3_truncation_before_enrichment_amended (m : SvdModel) (db : Db)
    (st : MappingStats) (enrichOk : String → Bool) (liked : List String) (n : Nat)
    (h1 : m.model_loaded = true) (h2 : liked ≠ [])
    (h3 : (mapProfileIds m db st liked).1 ≠ [])
    (h4 : validInnerIds m (mapProfileIds m db st liked).1 ≠ [])
    (h5 : getImdbIdsFromRawIds m db
      (rankedCandidates m (mapProfileIds m db st liked).1 n) ≠ []) :
    profileEndpoint m db st enrichOk liked n =
      (((getImdbIdsFromRawIds m db
          (rankedCandidates m (mapProfileIds m db st liked).1 n)).take n).filter enrichOk,
        generatedMessage (getImdbIdsFromRawIds m db
          (rankedCandidates m (mapProfileIds m db st liked).1 n)).length) := by
  unfold profileEndpoint
  rw [getRecs_success_path m db st liked n h1 h2 h3 h4 h5]
  by_cases he : (getImdbIdsFromRawIds m db
      (rankedCandidates m (mapProfileIds m db st liked).1 n)).take n = []
  · simp [he]
  · simp [he]

/-- Witness for C3 (amended): with n = 1 and an all-succeeding enricher,
the endpoint returns the first converted candidate while the message
still reports the 20 conversions. -/
theorem c3_truncation_before_enrichment_witness :
    profileEndpoint mC2 dbC3 st0 enrichAll ["A"] 1 = (["tt0001"], generatedMessage 20) :=
  (c3_truncation_before_enrichment_amended mC2 dbC3 st0 enrichAll ["A"] 1 rfl (by decide)
    (by decide) (by decide) (by decide)).trans (by decide)

/-! ## Claim C6 -/

/-- Counterexample for C6: the liked id tt1 resolves into the model but
its inner index 5 is out of bounds for the one-row matrix, so the service
takes the popular fallback branch — and the popular list contains tt1
itself, so an externally-resolved liked item appears in the output. -/
theorem c6_self_exclusion_counterexample :
    (mapProfileIds mC6 db0 st0 ["tt1"]).1 = ["tt1"] ∧
    (getRecommendationsForProfile mC6 db0 st0 ["tt1"] 1).1.1 = ["tt1"] := by
  decide

/-- Claim C6 (amended): the ranked candidate list always excludes the
mapped raw ids, so on the personalized success path with the pass-through
conversion none of the externally-resolved liked items appear in the
output; the popular fallback branches carry no such guarantee (the
popular list may itself contain a liked item). -/
theorem c6_self_exclusion_amended (m : SvdModel) (db : Db) (st : MappingStats)
    (liked : List String) (n : Nat)
    (h1 : m.model_loaded = true)
    (h3 : (mapProfileIds m db st liked).1 ≠ [])
    (h4 : validInnerIds m (mapProfileIds m db st liked).1 ≠ [])
    (hne : rankedCandidates m (mapProfileIds m db st liked).1 n ≠ [])
    (hext : (rankedCandidates m (mapProfileIds m db st liked).1 n).all
      (looksImdb m) = true) :
    ∀ x ∈ (getRecommendationsForProfile m db st liked n).1.1,
      x ∉ (mapProfileIds m db st liked).1 := by
  have h2 : liked ≠ [] := by
    intro h
    rw [h] at h3
    exact h3 rfl
  have hconv : getImdbIdsFromRawIds m db
      (rankedCandidates m (mapProfileIds m db st liked).1 n) =
      rankedCandidates m (mapProfileIds m db st liked).1 n :=
    conv_passthrough m db _ hext
  have h5 : getImdbIdsFromRawIds m db
      (rankedCandidates m (mapProfileIds m db st liked).1 n) ≠ [] := by
    rw [hconv]
    exact hne
  intro x hx
  rw [getRecs_success_path m db st liked n h1 h2 h3 h4 h5] at hx
  rw [hconv] at hx
  exact rankedCandidates_not_mapped m _ n x (List.take_subset _ _ hx)

/-- Witness for C6 (amended): the liked id A never appears in the output
of the success path of the two-item model. -/
theorem c6_self_exclusion_witness :
    "A" ∉ (getRecommendationsForProfile mW5 db0 st0 ["A"] 1).1.1 :=
  fun h =>
    c6_self_exclusion_amended mW5 db0 st0 ["A"] 1 rfl (by decide) (by decide) (by decide)
      (by decide) "A" h (by decide)

/-! ## Claim C5 -/

/-- Score list of the tie model: both candidates carry the same
similarity term. -/
theorem c5_scores_eval : profileScores mC5 ["9"] =
    [("1", cosineSim (tasteVector mC5 ["9"]) [(1:ℝ), 0]),
     ("2", cosineSim (tasteVector mC5 ["9"]) [(1:ℝ), 0])] := rfl

/-- Sorting the tied scores keeps the catalog order (stable sort). -/
theorem c5_sort_eval :
    List.insertionSort simDescRel
      [("1", cosineSim (tasteVector mC5 ["9"]) [(1:ℝ), 0]),
       ("2", cosineSim (tasteVector mC5 ["9"]) [(1:ℝ), 0])] =
      [("1", cosineSim (tasteVector mC5 ["9"]) [(1:ℝ), 0]),
       ("2", cosineSim (tasteVector mC5 ["9"]) [(1:ℝ), 0])] := by
  simp only [List.insertionSort, List.orderedInsert]
  rw [if_pos (show simDescRel
    ("1", cosineSim (tasteVector mC5 ["9"]) [(1:ℝ), 0])
    ("2", cosineSim (tasteVector mC5 ["9"]) [(1:ℝ), 0]) from le_refl _)]

/-- The ranked candidates of the tie model, in catalog tie-break order. -/
theorem c5_ranked_eval : rankedCandidates mC5 ["9"] 2 = ["1", "2"] := by
  unfold rankedCandidates
  rw [c5_scores_eval, c5_sort_eval]
  rfl

/-- Counterexample for C5: the ranking puts candidate 1 before candidate 2
(equal similarity, catalog tie-break), and converting each candidate on
its own gives tt0001 and tt0002 — yet the returned list is
[tt0002, tt0001], the links-table row order, because the batch conversion
query imposes no ordering. The final list does not follow the ranking. -/
theorem c5_conversion_order_counterexample :
    rankedCandidates mC5 ["9"] 2 = ["1", "2"] ∧
    getImdbIdsFromRawIds mC5 dbC5 ["1"] = ["tt0001"] ∧
    getImdbIdsFromRawIds mC5 dbC5 ["2"] = ["tt0002"] ∧
    (getRecommendationsForProfile mC5 dbC5 st0 ["9"] 2).1.1 = ["tt0002", "tt0001"] ∧
    (["tt0002", "tt0001"] : List String) ≠ ["tt0001", "tt0002"] := by
  refine ⟨c5_ranked_eval, by decide, by decide, ?_, by decide⟩
  have h5 : getImdbIdsFromRawIds mC5 dbC5 (rankedCandidates mC5 ["9"] 2) ≠ [] := by
    rw [c5_ranked_eval]
    decide
  rw [getRecs_success_path mC5 dbC5 st0 ["9"] 2 rfl (by decide) (by decide) (by decide) h5]
  rw [show (mapProfileIds mC5 dbC5 st0 ["9"]).1 = ["9"] from rfl, c5_ranked_eval]
  decide

/-- Claim C5 (amended): the candidate list handed to the conversion is the
stable descending-similarity order (sorted under simDescRel, a
permutation of the catalog scores), and the ranking order survives into
the returned list exactly when the conversion is the pass-through branch
(every candidate already caller-facing); the store-lookup branch returns
rows in store order instead. -/
theorem c5_ranking_order_amended (m : SvdModel) (db : Db) (st : MappingStats)
    (liked : List String) (n : Nat)
    (h1 : m.model_loaded = true) (h2 : liked ≠ [])
    (h3 : (mapProfileIds m db st liked).1 ≠ [])
    (h4 : validInnerIds m (mapProfileIds m db st liked).1 ≠ [])
    (hne : rankedCandidates m (mapProfileIds m db st liked).1 n ≠ [])
    (hext : (rankedCandidates m (mapProfileIds m db st liked).1 n).all
      (looksImdb m) = true) :
    (getRecommendationsForProfile m db st liked n).1.1 =
      (rankedCandidates m (mapProfileIds m db st liked).1 n).take n ∧
    List.Sorted simDescRel
      (List.insertionSort simDescRel (profileScores m (mapProfileIds m db st liked).1)) ∧
    (List.insertionSort simDescRel (profileScores m (mapProfileIds m db st liked).1)).Perm
      (profileScores m (mapProfileIds m db st liked).1) := by
  have hconv : getImdbIdsFromRawIds m db
      (rankedCandidates m (mapProfileIds m db st liked).1 n) =
      rankedCandidates m (mapProfileIds m db st liked).1 n :=
    conv_passthrough m db _ hext
  have h5 : getImdbIdsFromRawIds m db
      (rankedCandidates m (mapProfileIds m db st liked).1 n) ≠ [] := by
    rw [hconv]
    exact hne
  refine ⟨?_, List.sorted_insertionSort simDescRel _, List.perm_insertionSort simDescRel _⟩
  rw [getRecs_success_path m db st liked n h1 h2 h3 h4 h5, hconv]

/-- Witness for C5 (amended): the pass-through model returns its single
candidate in ranked order, with the sortedness and permutation facts
instantiated. -/
theorem c5_ranking_order_witness :
    (getRecommendationsForProfile mW5 db0 st0 ["A"] 1).1.1 =
      (rankedCandidates mW5 (mapProfileIds mW5 db0 st0 ["A"]).1 1).take 1 ∧
    List.Sorted simDescRel
      (List.insertionSort simDescRel (profileScores mW5 (mapProfileIds mW5 db0 st0 ["A"]).1)) ∧
    (List.insertionSort simDescRel (profileScores mW5 (mapProfileIds mW5 db0 st0 ["A"]).1)).Perm
      (profileScores mW5 (mapProfileIds mW5 db0 st0 ["A"]).1) :=
  c5_ranking_order_amended mW5 db0 st0 ["A"] 1 rfl (by decide) (by decide) (by decide)
    (by decide) (by decide)

/-! ## Claim C1 -/

/-- Taste vector of the scenario model: the mean of the single liked
embedding [1,0]. -/
theorem c1_taste_eval : tasteVector mC1 ["A"] = [(1:ℝ), 0] := by
  have h : tasteVector mC1 ["A"] = vecScale (1 / ((1:ℕ):ℝ)) [(1:ℝ), 0] := rfl
  rw [h]
  norm_num [vecScale]

/-- Magnitude of the unit vector [1,0]. -/
theorem c1_norm_unit : norm2 [(1:ℝ), 0] = 1 := by
  have h : dotL [(1:ℝ), 0] [(1:ℝ), 0] = 1 := by norm_num [dotL]
  unfold norm2
  rw [h, Real.sqrt_one]

/-- Magnitude of the unit vector [0,1]. -/
theorem c1_norm_01 : norm2 [(0:ℝ), 1] = 1 := by
  have h : dotL [(0:ℝ), 1] [(0:ℝ), 1] = 1 := by norm_num [dotL]
  unfold norm2
  rw [h, Real.sqrt_one]

/-- Magnitude of the vector [-1,0]. -/
theorem c1_norm_neg : norm2 [(-1:ℝ), 0] = 1 := by
  have h : dotL [(-1:ℝ), 0] [(-1:ℝ), 0] = 1 := by norm_num [dotL]
  unfold norm2
  rw [h, Real.sqrt_one]

/-- Magnitude of the vector [1,1]. -/
theorem c1_norm_11 : norm2 [(1:ℝ), 1] = Real.sqrt 2 := by
  have h : dotL [(1:ℝ), 1] [(1:ℝ), 1] = 2 := by norm_num [dotL]
  unfold norm2
  rw [h]

/-- Similarity of the taste vector to item B. -/
theorem c1_simB_eval : cosineSim [(1:ℝ), 0] [(0:ℝ), 1] = 0 := by
  have hcond : ¬ (norm2 [(1:ℝ), 0] = 0 ∨ norm2 [(0:ℝ), 1] = 0) := by
    rw [c1_norm_unit, c1_norm_01]
    norm_num
  unfold cosineSim
  rw [if_neg hcond, c1_norm_unit, c1_norm_01]
  norm_num [dotL]

/-- Similarity of the taste vector to item C: one over the square root of
two, equivalently half the square root of two. -/
theorem c1_simC_eval : cosineSim [(1:ℝ), 0] [(1:ℝ), 1] = Real.sqrt 2 / 2 := by
  have hs : Real.sqrt 2 ≠ 0 := ne_of_gt (Real.sqrt_pos.mpr (by norm_num))
  have hcond : ¬ (norm2 [(1:ℝ), 0] = 0 ∨ norm2 [(1:ℝ), 1] = 0) := by
    rw [c1_norm_unit, c1_norm_11]
    push_neg
    exact ⟨one_ne_zero, hs⟩
  have hd : dotL [(1:ℝ), 0] [(1:ℝ), 1] = 1 := by norm_num [dotL]
  unfold cosineSim
  rw [if_neg hcond, c1_norm_unit, c1_norm_11, hd, one_mul]
  rw [div_eq_div_iff hs (by norm_num : (2:ℝ) ≠ 0), one_mul,
    Real.mul_self_sqrt (by norm_num : (0:ℝ) ≤ 2)]

/-- Similarity of the taste vector to item D. -/
theorem c1_simD_eval : cosineSim [(1:ℝ), 0] [(-1:ℝ), 0] = -1 := by
  have hcond : ¬ (norm2 [(1:ℝ), 0] = 0 ∨ norm2 [(-1:ℝ), 0] = 0) := by
    rw [c1_norm_unit, c1_norm_neg]
    norm_num
  have hd : dotL [(1:ℝ), 0] [(-1:ℝ), 0] = -1 := by norm_num [dotL]
  unfold cosineSim
  rw [if_neg hcond, c1_norm_unit, c1_norm_neg, hd]
  norm_num

/-- The similarity loop of the scenario model scores exactly B, C, D
against the taste vector (A is skipped as a liked item). -/
theorem c1_scores_eval : profileScores mC1 ["A"] =
    [("B", cosineSim (tasteVector mC1 ["A"]) [(0:ℝ), 1]),
     ("C", cosineSim (tasteVector mC1 ["A"]) [(1:ℝ), 1]),
     ("D", cosineSim (tasteVector mC1 ["A"]) [(-1:ℝ), 0])] := rfl

/-- Sorting the three scored candidates descending gives C, B, D. -/
theorem c1_sort_eval :
    List.insertionSort simDescRel [("B", (0:ℝ)), ("C", Real.sqrt 2 / 2), ("D", (-1:ℝ))] =
      [("C", Real.sqrt 2 / 2), ("B", (0:ℝ)), ("D", (-1:ℝ))] := by
  have hCD : simDescRel ("C", Real.sqrt 2 / 2) ("D", (-1:ℝ)) := by
    show (-1:ℝ) ≤ Real.sqrt 2 / 2
    have h := Real.sqrt_nonneg 2
    linarith
  have hBC : ¬ simDescRel ("B", (0:ℝ)) ("C", Real.sqrt 2 / 2) := by
    show ¬ (Real.sqrt 2 / 2 ≤ 0)
    push_neg
    have h := Real.sqrt_pos.mpr (show (0:ℝ) < 2 by norm_num)
    linarith
  have hBD : simDescRel ("B", (0:ℝ)) ("D", (-1:ℝ)) := by
    show (-1:ℝ) ≤ 0
    norm_num
  simp only [List.insertionSort, List.orderedInsert]
  rw [if_pos hCD]
  simp only [List.orderedInsert]
  rw [if_neg hBC, if_pos hBD]

/-- The ranked candidate list of the scenario model. -/
theorem c1_ranked_eval : rankedCandidates mC1 ["A"] 2 = ["C", "B", "D"] := by
  unfold rankedCandidates
  rw [c1_scores_eval, c1_taste_eval, c1_simB_eval, c1_simC_eval, c1_simD_eval, c1_sort_eval]
  rfl

/-- Half the square root of two is 0.707 to three decimals. -/
theorem c1_sqrt2_near : |Real.sqrt 2 / 2 - 0.707| < 1 / 1000 := by
  have h1 : Real.sqrt 2 < 1.415 := by
    have h := Real.sqrt_lt_sqrt (by norm_num : (0:ℝ) ≤ 2) (by norm_num : (2:ℝ) < 1.415 ^ 2)
    rwa [Real.sqrt_sq (by norm_num : (0:ℝ) ≤ 1.415)] at h
  have h2 : (1.414:ℝ) < Real.sqrt 2 := by
    have h := Real.sqrt_lt_sqrt (by norm_num : (0:ℝ) ≤ 1.414 ^ 2)
      (by norm_num : (1.414:ℝ) ^ 2 < 2)
    rwa [Real.sqrt_sq (by norm_num : (0:ℝ) ≤ 1.414)] at h
  rw [abs_sub_lt_iff]
  constructor
  · linarith
  · linarith

/-- Claim C1: on the four-item scenario model with liked list [A] and
n = 2, the taste vector is [1,0]; the similarities are B = 0,
C = sqrt(2)/2 (0.707 to three decimals) and D = -1; the ranked order is
C, B, D; and the returned list is [C, B]. -/
theorem c1_concrete_scenario :
    tasteVector mC1 ["A"] = [(1:ℝ), 0] ∧
    cosineSim [(1:ℝ), 0] [(0:ℝ), 1] = 0 ∧
    cosineSim [(1:ℝ), 0] [(1:ℝ), 1] = Real.sqrt 2 / 2 ∧
    |Real.sqrt 2 / 2 - 0.707| < 1 / 1000 ∧
    cosineSim [(1:ℝ), 0] [(-1:ℝ), 0] = -1 ∧
    rankedCandidates mC1 ["A"] 2 = ["C", "B", "D"] ∧
    (getRecommendationsForProfile mC1 db0 st0 ["A"] 2).1.1 = ["C", "B"] := by
  refine ⟨c1_taste_eval, c1_simB_eval, c1_simC_eval, c1_sqrt2_near, c1_simD_eval,
    c1_ranked_eval, ?_⟩
  have h5 : getImdbIdsFromRawIds mC1 db0
      (rankedCandidates mC1 (mapProfileIds mC1 db0 st0 ["A"]).1 2) ≠ [] := by
    rw [show (mapProfileIds mC1 db0 st0 ["A"]).1 = ["A"] from rfl, c1_ranked_eval]
    decide
  rw [getRecs_success_path mC1 db0 st0 ["A"] 2 rfl (by decide) (by decide) (by decide) h5]
  rw [show (mapProfileIds mC1 db0 st0 ["A"]).1 = ["A"] from rfl, c1_ranked_eval]
  decide
